import Mathlib

/-!
Verification of the naive simulated execution handler
(`qstrader/execution_handler/execution_handler.py`,
`IBSimulatedExecutionHandler`).

Modelling choices:
* Python `Decimal` values are modelled as exact rationals (`Rat`);
  `Decimal "1.00"` is the rational `1`.
* Timestamps are abstract and modelled as `Nat`.
* The external price handler is an interface: its three lookup methods
  return `Option` values, `none` modelling the ticker-not-found error the
  spec describes; an exception aborts `execute_order`, leaving all state
  as it was at the point of the raise.
* The shared events queue is the list of fill events this core has put on
  it, and the compliance recorder is modelled by the list of fills passed
  to `record_trade` together with a success predicate `record_ok`
  (a failing `record_trade` call raises after the call is made).
* `execute_order` is state passing: it maps the pre-state to the
  post-state plus an optional propagated error, so mutations performed
  before a raise are visible in the post-state, exactly as in Python.
-/

namespace QSTrader

/-- Modelled from the spec: the `FillEvent` record of `qstrader/event/event.py`
(the event module is not part of the given sources). Per the data model of
the spec, a fill is an immutable value storing exactly the constructor
arguments: timestamp, ticker, action, quantity, exchange, price and
commission. -/
structure FillEvent where
  timestamp : Nat
  ticker : String
  action : String
  quantity : Int
  exchange : String
  fill_price : Rat
  commission : Rat
deriving DecidableEq, Repr

/-- An event as seen by the handler: a `type` tag plus the order fields,
which the handler reads only when `type` is the order tag. -/
structure Event where
  type : String
  ticker : String
  action : String
  quantity : Int
deriving DecidableEq, Repr

/-- The price source interface. Lookups return `none` when the ticker has
never been observed (the ticker-not-found error). -/
structure PriceHandler where
  type : String
  get_last_timestamp : String → Option Nat
  get_best_bid_ask : String → Option (Rat × Rat)
  get_last_close : String → Option Rat

/-- The compliance recorder interface: `record_ok fill` tells whether the
`record_trade` call on `fill` returns normally (`true`) or raises
(`false`). -/
structure Compliance where
  record_ok : FillEvent → Bool

/-- Mutable collaborator state threaded through `execute_order`: the fills
put on the shared events queue, and the fills passed to the compliance
recorder via `record_trade`, both in call order. -/
structure ExecState where
  events_queue : List FillEvent
  record_calls : List FillEvent
deriving DecidableEq, Repr

/-- Errors that `execute_order` can propagate: a ticker-not-found error
from a price or timestamp lookup, or an error raised by the compliance
recorder. -/
inductive ExecError where
  | lookupError : ExecError
  | recordError : ExecError
deriving DecidableEq, Repr

/-- The naive simulated execution handler: references to the price source
and the optional compliance recorder (the queue is part of `ExecState`). -/
structure IBSimulatedExecutionHandler where
  price_handler : PriceHandler
  compliance : Option Compliance

/-- `IBSimulatedExecutionHandler.calculate_ib_commission`: a flat
`Decimal "1.00"` fee per transaction, irrespective of lot size. -/
def calculate_ib_commission (_self : IBSimulatedExecutionHandler) : Rat :=
  1

/-- `IBSimulatedExecutionHandler.execute_order`: converts an order event
into a fill event without latency, slippage or fill-ratio issues.
Returns the post-state of the queue and recorder together with the
propagated error, if any. -/
def execute_order (self : IBSimulatedExecutionHandler) (event : Event)
    (s : ExecState) : ExecState × Option ExecError :=
  if event.type = "ORDER" then
    match self.price_handler.get_last_timestamp event.ticker with
    | none => (s, some ExecError.lookupError)
    | some timestamp =>
      let ticker := event.ticker
      let action := event.action
      let quantity := event.quantity
      let fill_priceRes : Option Rat :=
        if self.price_handler.type = "TICK_HANDLER" then
          match self.price_handler.get_best_bid_ask ticker with
          | none => none
          | some (bid, ask) =>
            if event.action = "BOT" then some ask else some bid
        else
          self.price_handler.get_last_close ticker
      match fill_priceRes with
      | none => (s, some ExecError.lookupError)
      | some fill_price =>
        let exchange := "ARCA"
        let commission := calculate_ib_commission self
        let fill_event : FillEvent :=
          ⟨timestamp, ticker, action, quantity, exchange, fill_price,
            commission⟩
        let s1 : ExecState :=
          { s with events_queue := s.events_queue ++ [fill_event] }
        match self.compliance with
        | none => (s1, none)
        | some c =>
          let s2 : ExecState :=
            { s1 with record_calls := s1.record_calls ++ [fill_event] }
          if c.record_ok fill_event then (s2, none)
          else (s2, some ExecError.recordError)
  else
    (s, none)

/-- The fill event that `execute_order` constructs for an order event
`e` once the timestamp lookup has returned `t` and the price has resolved
to `p`. -/
def naive_fill (self : IBSimulatedExecutionHandler) (t : Nat) (e : Event)
    (p : Rat) : FillEvent :=
  ⟨t, e.ticker, e.action, e.quantity, "ARCA", p, calculate_ib_commission self⟩

/-- The fill price `execute_order` resolves for event `e`: ask or bid from
`get_best_bid_ask` for a tick-oriented source, depending on the action,
and the `get_last_close` value otherwise; `none` when the lookup fails. -/
def resolved_fill_price (self : IBSimulatedExecutionHandler) (e : Event) :
    Option Rat :=
  if self.price_handler.type = "TICK_HANDLER" then
    match self.price_handler.get_best_bid_ask e.ticker with
    | none => none
    | some (bid, ask) =>
      if e.action = "BOT" then some ask else some bid
  else
    self.price_handler.get_last_close e.ticker

/-- Master characterisation of the successful path of `execute_order`: on
an order event whose timestamp lookup returns `t` and whose price resolves
to `p`, the fill `naive_fill self t e p` is appended to the queue, then
recorded by the compliance recorder when one is attached, a failing
recorder call propagating its error after the enqueue. -/
theorem execute_order_success (self : IBSimulatedExecutionHandler)
    (e : Event) (s : ExecState) (t : Nat) (p : Rat)
    (horder : e.type = "ORDER")
    (hts : self.price_handler.get_last_timestamp e.ticker = some t)
    (hp : resolved_fill_price self e = some p) :
    execute_order self e s =
      match self.compliance with
      | none =>
        ({ s with events_queue :=
            s.events_queue ++ [naive_fill self t e p] }, none)
      | some c =>
        (⟨s.events_queue ++ [naive_fill self t e p],
          s.record_calls ++ [naive_fill self t e p]⟩,
         if c.record_ok (naive_fill self t e p) then none
         else some ExecError.recordError) := by
  unfold execute_order
  rw [if_pos horder, hts]
  simp only [naive_fill]
  unfold resolved_fill_price at hp
  by_cases htick : self.price_handler.type = "TICK_HANDLER"
  · rw [if_pos htick] at hp
    simp only [if_pos htick]
    cases hba : self.price_handler.get_best_bid_ask e.ticker with
    | none => rw [hba] at hp; exact absurd hp (by simp)
    | some ba =>
      obtain ⟨bid, ask⟩ := ba
      rw [hba] at hp
      dsimp only at hp ⊢
      by_cases hact : e.action = "BOT"
      · rw [if_pos hact] at hp ⊢
        cases hp
        cases hc : self.compliance with
        | none => rfl
        | some c =>
          dsimp only
          by_cases hrec : c.record_ok
              ⟨t, e.ticker, e.action, e.quantity, "ARCA", p,
                calculate_ib_commission self⟩ = true
          · rw [if_pos hrec, if_pos hrec]
          · rw [if_neg hrec, if_neg hrec]
      · rw [if_neg hact] at hp ⊢
        cases hp
        cases hc : self.compliance with
        | none => rfl
        | some c =>
          dsimp only
          by_cases hrec : c.record_ok
              ⟨t, e.ticker, e.action, e.quantity, "ARCA", p,
                calculate_ib_commission self⟩ = true
          · rw [if_pos hrec, if_pos hrec]
          · rw [if_neg hrec, if_neg hrec]
  · rw [if_neg htick] at hp
    simp only [if_neg htick, hp]
    cases hc : self.compliance with
    | none => rfl
    | some c =>
      dsimp only
      by_cases hrec : c.record_ok
          ⟨t, e.ticker, e.action, e.quantity, "ARCA", p,
            calculate_ib_commission self⟩ = true
      · rw [if_pos hrec, if_pos hrec]
      · rw [if_neg hrec, if_neg hrec]

/-- Failure characterisation of `execute_order`: on an order event whose
timestamp lookup or price resolution fails, the lookup error propagates
and the state is returned untouched. -/
theorem execute_order_lookup_failure (self : IBSimulatedExecutionHandler)
    (e : Event) (s : ExecState)
    (horder : e.type = "ORDER")
    (hfail : self.price_handler.get_last_timestamp e.ticker = none ∨
      resolved_fill_price self e = none) :
    execute_order self e s = (s, some ExecError.lookupError) := by
  unfold execute_order
  rw [if_pos horder]
  cases hts : self.price_handler.get_last_timestamp e.ticker with
  | none => rfl
  | some t =>
    cases hfail with
    | inl h => rw [h] at hts; cases hts
    | inr h =>
      unfold resolved_fill_price at h
      by_cases htick : self.price_handler.type = "TICK_HANDLER"
      · rw [if_pos htick] at h
        simp only [if_pos htick]
        cases hba : self.price_handler.get_best_bid_ask e.ticker with
        | none => rfl
        | some ba =>
          obtain ⟨bid, ask⟩ := ba
          rw [hba] at h
          dsimp only at h
          by_cases hact : e.action = "BOT"
          · rw [if_pos hact] at h; cases h
          · rw [if_neg hact] at h; cases h
      · rw [if_neg htick] at h
        simp only [if_neg htick, h]

/-- A tick-oriented price source for concrete runs: timestamp 7 and the
top-of-book pair bid 50.2, ask 50.25, for every ticker. -/
def tick_ph : PriceHandler :=
  ⟨"TICK_HANDLER", fun _ => some 7, fun _ => some (502/10, 5025/100),
    fun _ => none⟩

/-- A bar-oriented price source for concrete runs: timestamp 9 and last
close 101.37 for every ticker. -/
def bar_ph : PriceHandler :=
  ⟨"BAR_HANDLER", fun _ => some 9, fun _ => none, fun _ => some (10137/100)⟩

/-- A price source that has observed no ticker at all: every lookup
fails. -/
def empty_ph : PriceHandler :=
  ⟨"TICK_HANDLER", fun _ => none, fun _ => none, fun _ => none⟩

/-- A compliance recorder whose `record_trade` always succeeds. -/
def ok_recorder : Compliance := ⟨fun _ => true⟩

/-- A compliance recorder whose `record_trade` always raises. -/
def bad_recorder : Compliance := ⟨fun _ => false⟩

/-- Handler over the tick source, no compliance recorder attached. -/
def h_tick : IBSimulatedExecutionHandler := ⟨tick_ph, none⟩

/-- Handler over the tick source with the succeeding recorder. -/
def h_tick_rec : IBSimulatedExecutionHandler := ⟨tick_ph, some ok_recorder⟩

/-- Handler over the tick source with the raising recorder. -/
def h_tick_bad : IBSimulatedExecutionHandler := ⟨tick_ph, some bad_recorder⟩

/-- Handler over the bar source, no compliance recorder attached. -/
def h_bar : IBSimulatedExecutionHandler := ⟨bar_ph, none⟩

/-- Handler over the empty source, no compliance recorder attached. -/
def h_empty : IBSimulatedExecutionHandler := ⟨empty_ph, none⟩

/-- A concrete buy order event. -/
def ev_buy : Event := ⟨"ORDER", "MSFT", "BOT", 100⟩

/-- A concrete sell order event. -/
def ev_sell : Event := ⟨"ORDER", "MSFT", "SLD", 100⟩

/-- A concrete sell order event on the bar-priced ticker. -/
def ev_bar_sell : Event := ⟨"ORDER", "AAPL", "SLD", 50⟩

/-- A concrete order event with an unrecognized action string. -/
def ev_weird : Event := ⟨"ORDER", "MSFT", "HOLD", 10⟩

/-- A concrete non-order event. -/
def ev_market : Event := ⟨"MARKET", "", "", 0⟩

/-- The empty collaborator state: nothing enqueued, nothing recorded. -/
def s0 : ExecState := ⟨[], []⟩

/-- C1: for an order event processed with a tick-oriented price source,
a buy-equivalent action ("BOT") is filled at the ask returned by
`get_best_bid_ask` for the ticker of the order, and a sell-equivalent
action ("SLD") is filled at the returned bid. -/
theorem tick_buy_fills_at_ask_sell_at_bid
    (self : IBSimulatedExecutionHandler) (e : Event) (s : ExecState)
    (t : Nat) (bid ask : Rat)
    (horder : e.type = "ORDER")
    (htick : self.price_handler.type = "TICK_HANDLER")
    (hts : self.price_handler.get_last_timestamp e.ticker = some t)
    (hba : self.price_handler.get_best_bid_ask e.ticker = some (bid, ask)) :
    ∃ fill : FillEvent,
      (execute_order self e s).1.events_queue = s.events_queue ++ [fill] ∧
      (e.action = "BOT" → fill.fill_price = ask) ∧
      (e.action = "SLD" → fill.fill_price = bid) := by
  have hp : resolved_fill_price self e =
      some (if e.action = "BOT" then ask else bid) := by
    unfold resolved_fill_price
    rw [if_pos htick, hba]
    dsimp only
    by_cases hact : e.action = "BOT"
    · rw [if_pos hact, if_pos hact]
    · rw [if_neg hact, if_neg hact]
  have h := execute_order_success self e s t _ horder hts hp
  refine ⟨naive_fill self t e (if e.action = "BOT" then ask else bid),
    ?_, ?_, ?_⟩
  · rw [h]
    cases self.compliance with
    | none => rfl
    | some c => rfl
  · intro hact
    simp [naive_fill, hact]
  · intro hact
    have hne : e.action ≠ "BOT" := by rw [hact]; decide
    simp [naive_fill, hne]

/-- Witness for C1: a buy and the concrete tick source fill at the ask
50.25 (bid being 50.2). -/
theorem tick_buy_fills_at_ask_sell_at_bid_witness :
    ∃ fill : FillEvent,
      (execute_order h_tick ev_buy s0).1.events_queue =
        s0.events_queue ++ [fill] ∧
      (ev_buy.action = "BOT" → fill.fill_price = 5025/100) ∧
      (ev_buy.action = "SLD" → fill.fill_price = 502/10) :=
  tick_buy_fills_at_ask_sell_at_bid h_tick ev_buy s0 7 (502/10) (5025/100)
    rfl rfl rfl rfl

/-- C2: for an order event processed with a bar-oriented (non-tick) price
source, the fill price is the `get_last_close` value for the ticker of the
order, regardless of the action. -/
theorem bar_fill_price_is_last_close
    (self : IBSimulatedExecutionHandler) (e : Event) (s : ExecState)
    (t : Nat) (cl : Rat)
    (horder : e.type = "ORDER")
    (hbar : self.price_handler.type ≠ "TICK_HANDLER")
    (hts : self.price_handler.get_last_timestamp e.ticker = some t)
    (hclose : self.price_handler.get_last_close e.ticker = some cl) :
    ∃ fill : FillEvent,
      (execute_order self e s).1.events_queue = s.events_queue ++ [fill] ∧
      fill.fill_price = cl := by
  have hp : resolved_fill_price self e = some cl := by
    unfold resolved_fill_price
    rw [if_neg hbar, hclose]
  have h := execute_order_success self e s t cl horder hts hp
  refine ⟨naive_fill self t e cl, ?_, rfl⟩
  rw [h]
  cases self.compliance with
  | none => rfl
  | some c => rfl

/-- Witness for C2: a sell on the concrete bar source fills at the last
close 101.37. -/
theorem bar_fill_price_is_last_close_witness :
    ∃ fill : FillEvent,
      (execute_order h_bar ev_bar_sell s0).1.events_queue =
        s0.events_queue ++ [fill] ∧
      fill.fill_price = 10137/100 :=
  bar_fill_price_is_last_close h_bar ev_bar_sell s0 9 (10137/100)
    rfl (by decide) rfl rfl

/-- C3: the published fill copies the ticker, action and quantity of the
order event, and its timestamp is the value `get_last_timestamp` returned
for that ticker at call time. -/
theorem fill_copies_order_fields_and_source_timestamp
    (self : IBSimulatedExecutionHandler) (e : Event) (s : ExecState)
    (t : Nat) (p : Rat)
    (horder : e.type = "ORDER")
    (hts : self.price_handler.get_last_timestamp e.ticker = some t)
    (hp : resolved_fill_price self e = some p) :
    ∃ fill : FillEvent,
      (execute_order self e s).1.events_queue = s.events_queue ++ [fill] ∧
      fill.ticker = e.ticker ∧ fill.action = e.action ∧
      fill.quantity = e.quantity ∧
      self.price_handler.get_last_timestamp e.ticker =
        some fill.timestamp := by
  have h := execute_order_success self e s t p horder hts hp
  refine ⟨naive_fill self t e p, ?_, rfl, rfl, rfl, hts⟩
  rw [h]
  cases self.compliance with
  | none => rfl
  | some c => rfl

/-- Witness for C3 at the concrete tick source and a sell order. -/
theorem fill_copies_order_fields_and_source_timestamp_witness :
    ∃ fill : FillEvent,
      (execute_order h_tick ev_sell s0).1.events_queue =
        s0.events_queue ++ [fill] ∧
      fill.ticker = ev_sell.ticker ∧ fill.action = ev_sell.action ∧
      fill.quantity = ev_sell.quantity ∧
      h_tick.price_handler.get_last_timestamp ev_sell.ticker =
        some fill.timestamp :=
  fill_copies_order_fields_and_source_timestamp h_tick ev_sell s0 7
    (502/10) rfl rfl rfl

/-- C10: with a tick-oriented price source, any order action other than
exactly "BOT" — including unrecognized action strings — is priced at the
bid; no validation of the action value happens before the bid side is
chosen. -/
theorem tick_non_bot_action_prices_at_bid
    (self : IBSimulatedExecutionHandler) (e : Event) (s : ExecState)
    (t : Nat) (bid ask : Rat)
    (horder : e.type = "ORDER")
    (htick : self.price_handler.type = "TICK_HANDLER")
    (hts : self.price_handler.get_last_timestamp e.ticker = some t)
    (hba : self.price_handler.get_best_bid_ask e.ticker = some (bid, ask))
    (hact : e.action ≠ "BOT") :
    ∃ fill : FillEvent,
      (execute_order self e s).1.events_queue = s.events_queue ++ [fill] ∧
      fill.fill_price = bid := by
  have hp : resolved_fill_price self e = some bid := by
    unfold resolved_fill_price
    rw [if_pos htick, hba]
    dsimp only
    rw [if_neg hact]
  have h := execute_order_success self e s t bid horder hts hp
  refine ⟨naive_fill self t e bid, ?_, rfl⟩
  rw [h]
  cases self.compliance with
  | none => rfl
  | some c => rfl

/-- Witness for C10: the unrecognized action "HOLD" is priced at the bid
50.2 on the concrete tick source. -/
theorem tick_non_bot_action_prices_at_bid_witness :
    ∃ fill : FillEvent,
      (execute_order h_tick ev_weird s0).1.events_queue =
        s0.events_queue ++ [fill] ∧
      fill.fill_price = 502/10 :=
  tick_non_bot_action_prices_at_bid h_tick ev_weird s0 7 (502/10)
    (5025/100) rfl rfl rfl rfl (by decide)

/-- C4: a non-order event makes execute_order a no-op that does not fail
and leaves the queue and the recorder untouched; an order event either
propagates a lookup error with the state untouched, or appends exactly
one fill to the events queue. -/
theorem non_order_noop_and_one_fill_per_order
    (self : IBSimulatedExecutionHandler) (e : Event) (s : ExecState) :
    (e.type ≠ "ORDER" → execute_order self e s = (s, none)) ∧
    (e.type = "ORDER" →
      execute_order self e s = (s, some ExecError.lookupError) ∨
      ∃ fill : FillEvent,
        (execute_order self e s).1.events_queue =
          s.events_queue ++ [fill]) := by
  constructor
  · intro hne
    unfold execute_order
    rw [if_neg hne]
  · intro horder
    cases hts : self.price_handler.get_last_timestamp e.ticker with
    | none =>
      exact Or.inl
        (execute_order_lookup_failure self e s horder (Or.inl hts))
    | some t =>
      cases hp : resolved_fill_price self e with
      | none =>
        exact Or.inl
          (execute_order_lookup_failure self e s horder (Or.inr hp))
      | some p =>
        refine Or.inr ⟨naive_fill self t e p, ?_⟩
        rw [execute_order_success self e s t p horder hts hp]
        cases self.compliance with
        | none => rfl
        | some c => rfl

/-- Witness for C4: a market event on the concrete tick handler leaves
the state untouched and raises nothing. -/
theorem non_order_noop_and_one_fill_per_order_witness :
    execute_order h_tick ev_market s0 = (s0, none) :=
  (non_order_noop_and_one_fill_per_order h_tick ev_market s0).1 (by decide)

/-- C5: when the ticker of an order event cannot be resolved — the
timestamp lookup fails, or the price lookup of the applicable kind
fails — execute_order propagates the lookup error and returns the state
untouched: no fill is built, enqueued, or passed to the recorder. -/
theorem lookup_failure_propagates_without_fill
    (self : IBSimulatedExecutionHandler) (e : Event) (s : ExecState)
    (horder : e.type = "ORDER")
    (hfail : self.price_handler.get_last_timestamp e.ticker = none ∨
      (self.price_handler.type = "TICK_HANDLER" ∧
        self.price_handler.get_best_bid_ask e.ticker = none) ∨
      (self.price_handler.type ≠ "TICK_HANDLER" ∧
        self.price_handler.get_last_close e.ticker = none)) :
    execute_order self e s = (s, some ExecError.lookupError) := by
  apply execute_order_lookup_failure self e s horder
  rcases hfail with h | ⟨htick, h⟩ | ⟨htick, h⟩
  · exact Or.inl h
  · refine Or.inr ?_
    unfold resolved_fill_price
    rw [if_pos htick, h]
  · refine Or.inr ?_
    unfold resolved_fill_price
    rw [if_neg htick, h]

/-- Witness for C5: an order against the source that observed no ticker
fails with the lookup error and leaves the empty state unchanged. -/
theorem lookup_failure_propagates_without_fill_witness :
    execute_order h_empty ev_buy s0 = (s0, some ExecError.lookupError) :=
  lookup_failure_propagates_without_fill h_empty ev_buy s0 rfl (Or.inl rfl)

/-- C6: for a successfully processed order event, an attached compliance
recorder receives exactly one record_trade call whose argument is the
very fill that was enqueued; with no recorder attached no record_trade
call happens and no error results. -/
theorem compliance_records_published_fill_exactly_once
    (self : IBSimulatedExecutionHandler) (e : Event) (s : ExecState)
    (t : Nat) (p : Rat)
    (horder : e.type = "ORDER")
    (hts : self.price_handler.get_last_timestamp e.ticker = some t)
    (hp : resolved_fill_price self e = some p) :
    (self.compliance = none →
      (execute_order self e s).1.record_calls = s.record_calls ∧
      (execute_order self e s).2 = none) ∧
    (∀ c : Compliance, self.compliance = some c →
      ∃ fill : FillEvent,
        (execute_order self e s).1.events_queue =
          s.events_queue ++ [fill] ∧
        (execute_order self e s).1.record_calls =
          s.record_calls ++ [fill]) := by
  have h := execute_order_success self e s t p horder hts hp
  constructor
  · intro hc
    rw [hc] at h
    rw [h]
    exact ⟨rfl, rfl⟩
  · intro c hc
    rw [hc] at h
    rw [h]
    exact ⟨naive_fill self t e p, rfl, rfl⟩

/-- Witness for C6: with the succeeding recorder attached, the enqueued
fill is also the one recorded. -/
theorem compliance_records_published_fill_exactly_once_witness :
    ∃ fill : FillEvent,
      (execute_order h_tick_rec ev_buy s0).1.events_queue =
        s0.events_queue ++ [fill] ∧
      (execute_order h_tick_rec ev_buy s0).1.record_calls =
        s0.record_calls ++ [fill] :=
  (compliance_records_published_fill_exactly_once h_tick_rec ev_buy s0 7
    (5025/100) rfl rfl rfl).2 ok_recorder rfl

/-- C7: the fill is enqueued strictly before record_trade runs: when the
attached recorder raises on the constructed fill, the record error
propagates, yet the post-state already carries the fill on the events
queue — the enqueue is not rolled back — and the record_trade call on
exactly that fill has taken place. -/
theorem record_failure_propagates_after_publish
    (self : IBSimulatedExecutionHandler) (e : Event) (s : ExecState)
    (t : Nat) (p : Rat) (c : Compliance)
    (horder : e.type = "ORDER")
    (hts : self.price_handler.get_last_timestamp e.ticker = some t)
    (hp : resolved_fill_price self e = some p)
    (hc : self.compliance = some c)
    (hbad : c.record_ok (naive_fill self t e p) = false) :
    execute_order self e s =
      (⟨s.events_queue ++ [naive_fill self t e p],
        s.record_calls ++ [naive_fill self t e p]⟩,
       some ExecError.recordError) := by
  have h := execute_order_success self e s t p horder hts hp
  rw [hc] at h
  dsimp only at h
  rw [hbad, if_neg Bool.false_ne_true] at h
  exact h

/-- Witness for C7: the raising recorder propagates its error while the
fill is already on the queue. -/
theorem record_failure_propagates_after_publish_witness :
    execute_order h_tick_bad ev_buy s0 =
      (⟨s0.events_queue ++ [naive_fill h_tick_bad 7 ev_buy (5025/100)],
        s0.record_calls ++ [naive_fill h_tick_bad 7 ev_buy (5025/100)]⟩,
       some ExecError.recordError) :=
  record_failure_propagates_after_publish h_tick_bad ev_buy s0 7
    (5025/100) bad_recorder rfl rfl rfl rfl rfl

/-- C9: the commission of every published fill is the flat
Decimal "1.00" — the exact rational 1 — returned by the separate
calculate_ib_commission function, independent of quantity, price and
price-source kind. -/
theorem commission_is_flat_one
    (self : IBSimulatedExecutionHandler) (e : Event) (s : ExecState)
    (t : Nat) (p : Rat)
    (horder : e.type = "ORDER")
    (hts : self.price_handler.get_last_timestamp e.ticker = some t)
    (hp : resolved_fill_price self e = some p) :
    ∃ fill : FillEvent,
      (execute_order self e s).1.events_queue = s.events_queue ++ [fill] ∧
      fill.commission = calculate_ib_commission self ∧
      calculate_ib_commission self = 1 := by
  have h := execute_order_success self e s t p horder hts hp
  refine ⟨naive_fill self t e p, ?_, rfl, rfl⟩
  rw [h]
  cases self.compliance with
  | none => rfl
  | some c => rfl

/-- Witness for C9 on the concrete bar source and a sell of 50 units at
close 101.37: the commission is still 1. -/
theorem commission_is_flat_one_witness :
    ∃ fill : FillEvent,
      (execute_order h_bar ev_bar_sell s0).1.events_queue =
        s0.events_queue ++ [fill] ∧
      fill.commission = calculate_ib_commission h_bar ∧
      calculate_ib_commission h_bar = 1 :=
  commission_is_flat_one h_bar ev_bar_sell s0 9 (10137/100) rfl rfl rfl

end QSTrader
